import Mathlib

/-!
Verification of the session idle/timeout monitor of `src/main.py`
(the `SessionManager` class and the monitoring loop in `entrypoint`).

Timestamps are modelled as natural numbers of seconds (the Python code
truncates `time.time()` differences with `int(...)`; with whole-second
timestamps and a monotone clock the truncation is the identity, and
natural subtraction matches the code on every state where the clock is
at or after the recorded timestamps).  Each poll-loop iteration is
modelled as one atomic evaluation at a single time `now`, mirroring the
body of the `while` loop; external calls (`session.say`,
`room.disconnect`) are modelled as emitted actions, with a variant
where each call may raise, mirroring the `try/except` per-tick handler.
-/

namespace Androfit

namespace MemoryOptimizedConfig

/-- `SESSION_TIMEOUT = 300` : 5 minutes of total session time. -/
def SESSION_TIMEOUT : Nat := 300

/-- `IDLE_TIMEOUT = 60` : 1 minute of no interaction. -/
def IDLE_TIMEOUT : Nat := 60

/-- `WARNING_TIME = 45` : warn the user at 45 seconds of idle. -/
def WARNING_TIME : Nat := 45

/-- `HEALTH_CHECK_INTERVAL = 5` : poll the state every 5 seconds. -/
def HEALTH_CHECK_INTERVAL : Nat := 5

end MemoryOptimizedConfig

/-- The mutable state of `SessionManager` (`src/main.py`, lines 109-117). -/
structure SessionManager where
  session_start_time : Nat
  last_interaction_time : Nat
  warning_sent : Bool
  is_agent_speaking : Bool
  is_user_speaking : Bool
  deriving DecidableEq, Repr

/-- `SessionManager.__init__`: both timestamps start at the creation time,
all flags start false. -/
def SessionManager.init (t : Nat) : SessionManager :=
  ⟨t, t, false, false, false⟩

/-- `reset_interaction_timer`: set `last_interaction_time` to the current
time and clear `warning_sent`. -/
def SessionManager.reset_interaction_timer (m : SessionManager) (now : Nat) :
    SessionManager :=
  { m with last_interaction_time := now, warning_sent := false }

/-- `get_idle_time`: seconds since the last interaction. -/
def SessionManager.get_idle_time (m : SessionManager) (now : Nat) : Nat :=
  now - m.last_interaction_time

/-- `get_session_duration`: seconds since session start. -/
def SessionManager.get_session_duration (m : SessionManager) (now : Nat) : Nat :=
  now - m.session_start_time

/-- `should_send_warning` (`src/main.py`, lines 132-138). -/
def SessionManager.should_send_warning (m : SessionManager) (now : Nat) : Bool :=
  decide (MemoryOptimizedConfig.WARNING_TIME ≤ m.get_idle_time now) &&
    !m.warning_sent && !m.is_agent_speaking && !m.is_user_speaking

/-- `should_timeout_session` (`src/main.py`, lines 140-153). -/
def SessionManager.should_timeout_session (m : SessionManager) (now : Nat) : Bool :=
  let idle_time := m.get_idle_time now
  let session_time := m.get_session_duration now
  let idle_timeout := decide (MemoryOptimizedConfig.IDLE_TIMEOUT ≤ idle_time) &&
    !m.is_agent_speaking && !m.is_user_speaking
  let session_timeout := decide (MemoryOptimizedConfig.SESSION_TIMEOUT ≤ session_time)
  idle_timeout || session_timeout

/-- The four speaking events the entrypoint subscribes to
(`src/main.py`, lines 164-186). -/
inductive SpeakingEvent where
  | user_started_speaking
  | user_stopped_speaking
  | agent_started_speaking
  | agent_stopped_speaking
  deriving DecidableEq, Repr

/-- The event handlers: each toggles its speaking flag and then calls
`reset_interaction_timer` at the event's time. -/
def handleEvent (m : SessionManager) (e : SpeakingEvent) (now : Nat) :
    SessionManager :=
  match e with
  | .user_started_speaking =>
      ({ m with is_user_speaking := true }).reset_interaction_timer now
  | .user_stopped_speaking =>
      ({ m with is_user_speaking := false }).reset_interaction_timer now
  | .agent_started_speaking =>
      ({ m with is_agent_speaking := true }).reset_interaction_timer now
  | .agent_stopped_speaking =>
      ({ m with is_agent_speaking := false }).reset_interaction_timer now

/-- The observable actions a poll-loop iteration can perform:
the idle warning message ("Are you still there? ..."), the idle-timeout
closing message ("Thanks for the great workout! ..."), the max-duration
closing message ("Great session! Time's up ..."), and the room disconnect. -/
inductive Action where
  | warningMessage
  | idleClosingMessage
  | maxDurationClosingMessage
  | disconnect
  deriving DecidableEq, Repr

/-- One iteration of the monitoring loop (`src/main.py`, lines 203-243),
assuming no external call raises.  Returns the updated state, the list of
actions performed in order, and whether the loop `break`s (terminates). -/
def pollTick (m : SessionManager) (now : Nat) :
    SessionManager × List Action × Bool :=
  let step1 :=
    if m.should_send_warning now then
      ({ m with warning_sent := true }, [Action.warningMessage])
    else (m, ([] : List Action))
  let m1 := step1.1
  let acts1 := step1.2
  if m1.should_timeout_session now then
    let idle_time := m1.get_idle_time now
    let closing :=
      if MemoryOptimizedConfig.IDLE_TIMEOUT ≤ idle_time then
        Action.idleClosingMessage
      else
        Action.maxDurationClosingMessage
    (m1, acts1 ++ [closing, Action.disconnect], true)
  else
    (m1, acts1, false)

/-- Which external calls succeed during one tick: the warning `say`, the
closing `say`, and the `disconnect`. -/
structure TickEnv where
  sayWarningOk : Bool
  sayClosingOk : Bool
  disconnectOk : Bool
  deriving DecidableEq, Repr

/-- The environment in which every external call succeeds. -/
def TickEnv.allOk : TickEnv := ⟨true, true, true⟩

/-- The errors an external call can raise during a tick. -/
inductive TickError where
  | sayWarningFailed
  | sayClosingFailed
  | disconnectFailed
  deriving DecidableEq, Repr

/-- The body of the `try` block of one loop iteration with fallible
external calls.  On an exception it returns the error together with the
state as already mutated and the actions already performed (Python state
mutations before the raising call persist). -/
def tickBodyExc (env : TickEnv) (m : SessionManager) (now : Nat) :
    Except (TickError × SessionManager × List Action)
      (SessionManager × List Action × Bool) :=
  let warnFire := m.should_send_warning now
  let m1 := if warnFire then { m with warning_sent := true } else m
  if warnFire && !env.sayWarningOk then
    .error (.sayWarningFailed, m1, [])
  else
    let acts1 : List Action := if warnFire then [Action.warningMessage] else []
    if m1.should_timeout_session now then
      let idle_time := m1.get_idle_time now
      let closing :=
        if MemoryOptimizedConfig.IDLE_TIMEOUT ≤ idle_time then
          Action.idleClosingMessage
        else
          Action.maxDurationClosingMessage
      if !env.sayClosingOk then
        .error (.sayClosingFailed, m1, acts1)
      else if !env.disconnectOk then
        .error (.disconnectFailed, m1, acts1 ++ [closing])
      else
        .ok (m1, acts1 ++ [closing, Action.disconnect], true)
    else
      .ok (m1, acts1, false)

/-- One full loop iteration including the per-tick `except` handler
(`src/main.py`, lines 245-249): an exception is caught and logged and the
loop continues (`break` is not reached). -/
def loopIter (env : TickEnv) (m : SessionManager) (now : Nat) :
    SessionManager × List Action × Bool :=
  match tickBodyExc env m now with
  | .ok r => r
  | .error (_, m1, acts) => (m1, acts, false)

/-- Run the monitoring loop (no intervening events, no failures) at the
given sequence of poll times, stopping when a tick `break`s.  Returns the
final state and all actions performed. -/
def runPolls (m : SessionManager) : List Nat → SessionManager × List Action
  | [] => (m, [])
  | t :: ts =>
    let r := pollTick m t
    if r.2.2 then (r.1, r.2.1)
    else
      let rest := runPolls r.1 ts
      (rest.1, r.2.1 ++ rest.2)

/-- Number of idle-warning messages in a list of actions. -/
def warningCount (acts : List Action) : Nat :=
  acts.count Action.warningMessage

/-- States of the monitor reachable (at a given current time) from session
creation under the event handlers, the initial-greeting reset
(`src/main.py`, line 200), the poll loop (with or without failing external
calls), and the passage of time. -/
inductive Reachable : SessionManager → Nat → Prop where
  | init (t0 : Nat) : Reachable (SessionManager.init t0) t0
  | wait {m : SessionManager} {t : Nat} (t' : Nat) :
      Reachable m t → t ≤ t' → Reachable m t'
  | evt {m : SessionManager} {t : Nat} (e : SpeakingEvent) (t' : Nat) :
      Reachable m t → t ≤ t' → Reachable (handleEvent m e t') t'
  | greet {m : SessionManager} {t : Nat} (t' : Nat) :
      Reachable m t → t ≤ t' → Reachable (m.reset_interaction_timer t') t'
  | tick {m : SessionManager} {t : Nat} (t' : Nat) :
      Reachable m t → t ≤ t' → Reachable (pollTick m t').1 t'
  | tickE {m : SessionManager} {t : Nat} (env : TickEnv) (t' : Nat) :
      Reachable m t → t ≤ t' → Reachable (loopIter env m t').1 t'

/-- The inductive invariant of the monitor: session start precedes the last
interaction, the last interaction precedes the current time, and a sent
warning implies no ongoing speech and idle time at least the warning
threshold. -/
def MonitorInv (m : SessionManager) (t : Nat) : Prop :=
  m.session_start_time ≤ m.last_interaction_time ∧
    m.last_interaction_time ≤ t ∧
    (m.warning_sent = true →
      m.is_agent_speaking = false ∧ m.is_user_speaking = false ∧
        MemoryOptimizedConfig.WARNING_TIME ≤ m.get_idle_time t)

/-! ### Helper lemmas -/

theorem should_send_warning_iff (m : SessionManager) (now : Nat) :
    m.should_send_warning now = true ↔
      MemoryOptimizedConfig.WARNING_TIME ≤ m.get_idle_time now ∧
        m.warning_sent = false ∧ m.is_agent_speaking = false ∧
        m.is_user_speaking = false := by
  simp [SessionManager.should_send_warning, Bool.and_eq_true, and_assoc]

theorem should_timeout_iff (m : SessionManager) (now : Nat) :
    m.should_timeout_session now = true ↔
      (MemoryOptimizedConfig.IDLE_TIMEOUT ≤ m.get_idle_time now ∧
        m.is_agent_speaking = false ∧ m.is_user_speaking = false) ∨
      MemoryOptimizedConfig.SESSION_TIMEOUT ≤ m.get_session_duration now := by
  simp [SessionManager.should_timeout_session, Bool.and_eq_true, and_assoc]

/-- `should_timeout_session` does not read `warning_sent`. -/
theorem should_timeout_set_warning (m : SessionManager) (b : Bool) (now : Nat) :
    SessionManager.should_timeout_session { m with warning_sent := b } now =
      m.should_timeout_session now := rfl

/-- `get_idle_time` does not read `warning_sent`. -/
theorem get_idle_time_set_warning (m : SessionManager) (b : Bool) (now : Nat) :
    SessionManager.get_idle_time { m with warning_sent := b } now =
      m.get_idle_time now := rfl

/-- Setting `warning_sent` conditionally does not change
`should_timeout_session`. -/
theorem should_timeout_if_warning (c : Prop) [Decidable c] (m : SessionManager)
    (now : Nat) :
    SessionManager.should_timeout_session
        (if c then { m with warning_sent := true } else m) now =
      m.should_timeout_session now := by
  split <;> rfl

/-- Setting `warning_sent` conditionally does not change `get_idle_time`. -/
theorem get_idle_time_if_warning (c : Prop) [Decidable c] (m : SessionManager)
    (now : Nat) :
    SessionManager.get_idle_time
        (if c then { m with warning_sent := true } else m) now =
      m.get_idle_time now := by
  split <;> rfl

/-- For a fixed state, `should_timeout_session` is monotone in time. -/
theorem should_timeout_mono {m : SessionManager} {now now' : Nat}
    (h : now ≤ now') (ht : m.should_timeout_session now = true) :
    m.should_timeout_session now' = true := by
  rw [should_timeout_iff] at ht ⊢
  have hidle : m.get_idle_time now ≤ m.get_idle_time now' :=
    Nat.sub_le_sub_right h _
  have hsess : m.get_session_duration now ≤ m.get_session_duration now' :=
    Nat.sub_le_sub_right h _
  rcases ht with ⟨h1, h2, h3⟩ | h1
  · exact Or.inl ⟨le_trans h1 hidle, h2, h3⟩
  · exact Or.inr (le_trans h1 hsess)

/-- The state after a tick: unchanged, or `warning_sent` set (and then the
warning condition held). -/
theorem pollTick_fst (m : SessionManager) (now : Nat) :
    (pollTick m now).1 =
      if m.should_send_warning now then { m with warning_sent := true }
      else m := by
  unfold pollTick
  by_cases h : m.should_send_warning now = true <;> simp [h] <;> split <;> rfl

/-- The `break` flag of a tick is exactly the timeout condition. -/
theorem pollTick_brk (m : SessionManager) (now : Nat) :
    (pollTick m now).2.2 = m.should_timeout_session now := by
  unfold pollTick
  by_cases h : m.should_send_warning now = true <;>
    simp [h, should_timeout_set_warning] <;> split <;> simp_all

/-- The warning message is emitted in a tick exactly when
`should_send_warning` held at its start. -/
theorem pollTick_warningCount (m : SessionManager) (now : Nat) :
    warningCount (pollTick m now).2.1 =
      if m.should_send_warning now then 1 else 0 := by
  have hc : ∀ (b : Prop) (inst : Decidable b),
      (if b then Action.idleClosingMessage else Action.maxDurationClosingMessage) ≠
        Action.warningMessage := by
    intro b inst
    split <;> simp
  unfold pollTick
  by_cases h : m.should_send_warning now = true <;>
    simp only [h, Bool.false_eq_true, if_true, if_false] <;>
    split <;>
    simp [warningCount, List.count_cons, List.count_append, hc]

theorem pollTick_warning_sent_mono {m : SessionManager} (now : Nat)
    (h : m.warning_sent = true) : (pollTick m now).1.warning_sent = true := by
  rw [pollTick_fst]
  split <;> simp [h]

theorem warningCount_append (a b : List Action) :
    warningCount (a ++ b) = warningCount a + warningCount b := by
  simp [warningCount, List.count_append]

/-- Once `warning_sent` is set, no further poll (without an intervening
event) emits a warning. -/
theorem runPolls_count_zero {m : SessionManager} (h : m.warning_sent = true) :
    ∀ ts : List Nat, warningCount (runPolls m ts).2 = 0 := by
  intro ts
  induction ts generalizing m with
  | nil => simp [runPolls, warningCount]
  | cons t ts ih =>
    have hw : m.should_send_warning t = false := by
      rw [← Bool.not_eq_true, should_send_warning_iff]
      intro hc
      exact absurd h (by simp [hc.2.1])
    have hcnt := pollTick_warningCount m t
    rw [hw] at hcnt
    simp only [runPolls]
    split
    · simpa using hcnt
    · simp [warningCount_append, hcnt, ih (pollTick_warning_sent_mono t h)]

/-- Every run of polls (without intervening events) emits at most one
warning. -/
theorem runPolls_count_le_one (m : SessionManager) (ts : List Nat) :
    warningCount (runPolls m ts).2 ≤ 1 := by
  induction ts generalizing m with
  | nil => simp [runPolls, warningCount]
  | cons t ts ih =>
    have hcnt := pollTick_warningCount m t
    simp only [runPolls]
    by_cases h : m.should_send_warning t = true
    · rw [h, if_pos rfl] at hcnt
      have hsent : (pollTick m t).1.warning_sent = true := by
        rw [pollTick_fst, if_pos h]
      split
      · simpa using Nat.le_of_eq hcnt
      · rw [warningCount_append, hcnt, runPolls_count_zero hsent ts]
    · rw [Bool.not_eq_true] at h
      rw [h] at hcnt
      simp only [Bool.false_eq_true, if_false] at hcnt
      split
      · simp [hcnt]
      · rw [warningCount_append, hcnt, Nat.zero_add]
        exact ih _

/-- Before the warning delay has elapsed, a poll from the initial state is
a no-op. -/
theorem pollTick_init_noop {t0 t : Nat}
    (h : t < t0 + MemoryOptimizedConfig.WARNING_TIME) :
    pollTick (SessionManager.init t0) t = (SessionManager.init t0, [], false) := by
  have h45 : MemoryOptimizedConfig.WARNING_TIME = 45 := rfl
  have h60 : MemoryOptimizedConfig.IDLE_TIMEOUT = 60 := rfl
  have h300 : MemoryOptimizedConfig.SESSION_TIMEOUT = 300 := rfl
  rw [h45] at h
  have hw : (SessionManager.init t0).should_send_warning t = false := by
    rw [← Bool.not_eq_true, should_send_warning_iff]
    intro hc
    have h1 := hc.1
    rw [h45] at h1
    simp only [SessionManager.get_idle_time, SessionManager.init] at h1
    omega
  have hto : (SessionManager.init t0).should_timeout_session t = false := by
    rw [← Bool.not_eq_true, should_timeout_iff]
    intro hc
    rcases hc with ⟨h1, _, _⟩ | h1
    · rw [h60] at h1
      simp only [SessionManager.get_idle_time, SessionManager.init] at h1
      omega
    · rw [h300] at h1
      simp only [SessionManager.get_session_duration, SessionManager.init] at h1
      omega
  unfold pollTick
  simp [hw, hto]

/-- The state of the `loopIter` step equals the state of the exception-free
tick: the termination branch performs no state writes, so a caught
exception leaves the same state as the corresponding successful tick. -/
theorem loopIter_fst (env : TickEnv) (m : SessionManager) (now : Nat) :
    (loopIter env m now).1 = (pollTick m now).1 := by
  by_cases h : m.should_send_warning now = true <;>
    by_cases h4 : m.should_timeout_session now = true <;>
    by_cases h1 : env.sayWarningOk = true <;>
    by_cases h2 : env.sayClosingOk = true <;>
    by_cases h3 : env.disconnectOk = true <;>
    simp [loopIter, tickBodyExc, pollTick_fst, h, h4, h1, h2, h3,
      should_timeout_set_warning]

theorem monitorInv_init (t0 : Nat) : MonitorInv (SessionManager.init t0) t0 := by
  simp [MonitorInv, SessionManager.init]

theorem monitorInv_wait {m : SessionManager} {t t' : Nat} (hle : t ≤ t')
    (h : MonitorInv m t) : MonitorInv m t' := by
  obtain ⟨h1, h2, h3⟩ := h
  refine ⟨h1, le_trans h2 hle, fun hw => ?_⟩
  obtain ⟨ha, hu, hi⟩ := h3 hw
  exact ⟨ha, hu, le_trans hi (Nat.sub_le_sub_right hle _)⟩

theorem monitorInv_reset {m : SessionManager} {t t' : Nat} (hle : t ≤ t')
    (h : MonitorInv m t) : MonitorInv (m.reset_interaction_timer t') t' := by
  obtain ⟨h1, h2, _⟩ := h
  exact ⟨le_trans h1 (le_trans h2 hle), le_refl t', by simp [SessionManager.reset_interaction_timer]⟩

theorem monitorInv_handleEvent {m : SessionManager} {t t' : Nat}
    (e : SpeakingEvent) (hle : t ≤ t') (h : MonitorInv m t) :
    MonitorInv (handleEvent m e t') t' := by
  obtain ⟨h1, h2, _⟩ := h
  have hst : t ≤ t' := hle
  cases e <;>
    exact ⟨le_trans h1 (le_trans h2 hle), le_refl t', by
      simp [handleEvent, SessionManager.reset_interaction_timer]⟩

theorem monitorInv_tick {m : SessionManager} {t t' : Nat} (hle : t ≤ t')
    (h : MonitorInv m t) : MonitorInv (pollTick m t').1 t' := by
  rw [pollTick_fst]
  by_cases hw : m.should_send_warning t' = true
  · rw [if_pos hw]
    obtain ⟨h1, h2, _⟩ := h
    rw [should_send_warning_iff] at hw
    exact ⟨h1, le_trans h2 hle, fun _ => ⟨hw.2.2.1, hw.2.2.2, hw.1⟩⟩
  · rw [if_neg hw]
    exact monitorInv_wait hle h

theorem reachable_invariant {m : SessionManager} {t : Nat}
    (h : Reachable m t) : MonitorInv m t := by
  induction h with
  | init t0 => exact monitorInv_init t0
  | wait t' _ hle ih => exact monitorInv_wait hle ih
  | evt e t' _ hle ih => exact monitorInv_handleEvent e hle ih
  | greet t' _ hle ih => exact monitorInv_reset hle ih
  | tick t' _ hle ih => exact monitorInv_tick hle ih
  | tickE env t' _ hle ih =>
    rw [loopIter_fst]
    exact monitorInv_tick hle ih

/-- With no events after session start, no poll before the warning delay
emits a warning. -/
theorem runPolls_init_count_zero (t0 : Nat) (ts : List Nat)
    (h : ∀ t ∈ ts, t < t0 + MemoryOptimizedConfig.WARNING_TIME) :
    warningCount (runPolls (SessionManager.init t0) ts).2 = 0 := by
  induction ts with
  | nil => simp [runPolls, warningCount]
  | cons t ts ih =>
    have hn := pollTick_init_noop (h t (List.mem_cons_self t ts))
    simp only [runPolls, hn]
    simpa [warningCount_append, warningCount] using
      ih fun x hx => h x (List.mem_cons_of_mem t hx)

/-- With no events after session start, if some poll happens at or after
the warning delay, exactly one warning is emitted over the whole run. -/
theorem runPolls_init_count_one (t0 : Nat) (ts : List Nat)
    (h : ∃ t ∈ ts, t0 + MemoryOptimizedConfig.WARNING_TIME ≤ t) :
    warningCount (runPolls (SessionManager.init t0) ts).2 = 1 := by
  induction ts with
  | nil => simp at h
  | cons t ts ih =>
    by_cases hc : t0 + MemoryOptimizedConfig.WARNING_TIME ≤ t
    · have hw : (SessionManager.init t0).should_send_warning t = true := by
        rw [should_send_warning_iff]
        refine ⟨?_, rfl, rfl, rfl⟩
        simp only [SessionManager.get_idle_time, SessionManager.init]
        omega
      have hcnt := pollTick_warningCount (SessionManager.init t0) t
      rw [hw] at hcnt
      simp only [if_true] at hcnt
      have hsent : (pollTick (SessionManager.init t0) t).1.warning_sent = true := by
        rw [pollTick_fst, if_pos hw]
      simp only [runPolls]
      split
      · exact hcnt
      · rw [warningCount_append, hcnt, runPolls_count_zero hsent ts]
    · have hn := pollTick_init_noop (Nat.lt_of_not_le hc)
      rcases h with ⟨x, hx, hxge⟩
      rcases List.mem_cons.mp hx with rfl | hx'
      · exact absurd hxge hc
      simp only [runPolls, hn]
      simpa [warningCount_append, warningCount] using ih ⟨x, hx', hxge⟩

/-! ### Claims -/

/-- C1: for every state of the monitor, `should_timeout_session` returns
true iff (idle time ≥ idle timeout and the agent is not speaking and the
user is not speaking) or session time ≥ max session duration; in
particular the max-session-duration disjunct makes it true regardless of
the speaking flags. -/
theorem claim_C1_should_timeout_spec (m : SessionManager) (now : Nat) :
    (m.should_timeout_session now = true ↔
      (MemoryOptimizedConfig.IDLE_TIMEOUT ≤ m.get_idle_time now ∧
        m.is_agent_speaking = false ∧ m.is_user_speaking = false) ∨
      MemoryOptimizedConfig.SESSION_TIMEOUT ≤ m.get_session_duration now) ∧
    (MemoryOptimizedConfig.SESSION_TIMEOUT ≤ m.get_session_duration now →
      m.should_timeout_session now = true) :=
  ⟨should_timeout_iff m now, fun h => (should_timeout_iff m now).2 (Or.inr h)⟩

theorem claim_C1_witness :
    SessionManager.should_timeout_session ⟨0, 301, false, true, true⟩ 305 = true :=
  (claim_C1_should_timeout_spec ⟨0, 301, false, true, true⟩ 305).2 (by decide)

/-- C2: for every state of the monitor, `should_send_warning` returns true
iff idle time ≥ warning delay, `warning_sent` is false, and neither party
is speaking; when it fires, the poll iteration emits the warning message
and sets `warning_sent` to true. -/
theorem claim_C2_should_send_warning_spec (m : SessionManager) (now : Nat) :
    (m.should_send_warning now = true ↔
      MemoryOptimizedConfig.WARNING_TIME ≤ m.get_idle_time now ∧
        m.warning_sent = false ∧ m.is_agent_speaking = false ∧
        m.is_user_speaking = false) ∧
    (m.should_send_warning now = true →
      (pollTick m now).1.warning_sent = true ∧
        Action.warningMessage ∈ (pollTick m now).2.1) := by
  refine ⟨should_send_warning_iff m now, fun h => ⟨?_, ?_⟩⟩
  · rw [pollTick_fst, if_pos h]
  · unfold pollTick
    simp only [h, if_true]
    split <;> simp

theorem claim_C2_witness :
    (pollTick ⟨0, 0, false, false, false⟩ 45).1.warning_sent = true ∧
      Action.warningMessage ∈ (pollTick ⟨0, 0, false, false, false⟩ 45).2.1 :=
  (claim_C2_should_send_warning_spec ⟨0, 0, false, false, false⟩ 45).2 (by decide)

/-- C4: immediately after any speaking event, `last_interaction_time`
equals the event's timestamp and `warning_sent` is false. -/
theorem claim_C4_event_resets (m : SessionManager) (e : SpeakingEvent)
    (now : Nat) :
    (handleEvent m e now).last_interaction_time = now ∧
      (handleEvent m e now).warning_sent = false := by
  cases e <;> exact ⟨rfl, rfl⟩

/-- C8: in a tick where both the warning and the termination conditions
hold, the warning is evaluated first: the action list starts with the
warning message, `warning_sent` is set, and only then the closing message
and the disconnect follow, with the loop breaking. -/
theorem claim_C8_warning_before_termination (m : SessionManager) (now : Nat)
    (hw : m.should_send_warning now = true)
    (ht : m.should_timeout_session now = true) :
    (pollTick m now).2.1 =
      [Action.warningMessage,
        if MemoryOptimizedConfig.IDLE_TIMEOUT ≤ m.get_idle_time now then
          Action.idleClosingMessage
        else Action.maxDurationClosingMessage,
        Action.disconnect] ∧
    (pollTick m now).1.warning_sent = true ∧
    (pollTick m now).2.2 = true := by
  unfold pollTick
  simp [hw, should_timeout_set_warning, ht, get_idle_time_set_warning]

theorem claim_C8_witness :
    (pollTick (SessionManager.init 0) 60).2.1 =
      [Action.warningMessage, Action.idleClosingMessage, Action.disconnect] ∧
    (pollTick (SessionManager.init 0) 60).1.warning_sent = true ∧
    (pollTick (SessionManager.init 0) 60).2.2 = true :=
  claim_C8_warning_before_termination (SessionManager.init 0) 60
    (by decide) (by decide)

/-- C3: at most one warning is emitted between two consecutive resets of
`last_interaction_time`; with no events after session start, no warning
fires before the warning delay, and exactly one warning fires as soon as
some poll happens at or after the warning delay. -/
theorem claim_C3_one_warning_per_idle_period :
    (∀ (m : SessionManager) (ts : List Nat),
      warningCount (runPolls m ts).2 ≤ 1) ∧
    (∀ (t0 : Nat) (ts : List Nat),
      (∀ t ∈ ts, t < t0 + MemoryOptimizedConfig.WARNING_TIME) →
      warningCount (runPolls (SessionManager.init t0) ts).2 = 0) ∧
    (∀ (t0 : Nat) (ts : List Nat),
      (∃ t ∈ ts, t0 + MemoryOptimizedConfig.WARNING_TIME ≤ t) →
      warningCount (runPolls (SessionManager.init t0) ts).2 = 1) :=
  ⟨runPolls_count_le_one, runPolls_init_count_zero, runPolls_init_count_one⟩

theorem claim_C3_witness :
    warningCount (runPolls (SessionManager.init 0) [45, 50]).2 = 1 :=
  claim_C3_one_warning_per_idle_period.2.2 0 [45, 50] ⟨45, by decide, by decide⟩

/-- C5 as stated is false: the counterexample is the reachable state with
session start 0, an agent-started-speaking event at 240, and a poll at
310.  Termination fires solely through the max-session-duration disjunct
(the idle disjunct is suppressed by the ongoing speech), yet the emitted
closing message is the idle-timeout one, because the message is chosen by
raw idle time alone. -/
theorem claim_C5_counterexample :
    Reachable ⟨0, 240, false, true, false⟩ 310 ∧
    SessionManager.should_timeout_session ⟨0, 240, false, true, false⟩ 310 = true ∧
    ¬(MemoryOptimizedConfig.IDLE_TIMEOUT ≤
        SessionManager.get_idle_time ⟨0, 240, false, true, false⟩ 310 ∧
      (⟨0, 240, false, true, false⟩ : SessionManager).is_agent_speaking = false ∧
      (⟨0, 240, false, true, false⟩ : SessionManager).is_user_speaking = false) ∧
    MemoryOptimizedConfig.SESSION_TIMEOUT ≤
      SessionManager.get_session_duration ⟨0, 240, false, true, false⟩ 310 ∧
    (pollTick ⟨0, 240, false, true, false⟩ 310).2.1 =
      [Action.idleClosingMessage, Action.disconnect] := by
  refine ⟨?_, by decide, by decide, by decide, by decide⟩
  exact Reachable.wait 310
    (Reachable.evt SpeakingEvent.agent_started_speaking 240
      (Reachable.init 0) (Nat.zero_le 240)) (by omega)

/-- C5 amended: in any terminating tick, the closing message is chosen by
raw idle time alone, ignoring the speaking flags and which disjunct made
the termination condition true: the idle-timeout message is emitted iff
idle time ≥ idle timeout, and the max-duration message iff idle time <
idle timeout (so in the cited scenario, where activity keeps idle time
below the idle timeout, the max-duration message is indeed used). -/
theorem claim_C5_closing_message_by_idle_time (m : SessionManager) (now : Nat)
    (ht : m.should_timeout_session now = true) :
    (Action.idleClosingMessage ∈ (pollTick m now).2.1 ↔
      MemoryOptimizedConfig.IDLE_TIMEOUT ≤ m.get_idle_time now) ∧
    (Action.maxDurationClosingMessage ∈ (pollTick m now).2.1 ↔
      m.get_idle_time now < MemoryOptimizedConfig.IDLE_TIMEOUT) := by
  unfold pollTick
  by_cases hw : m.should_send_warning now = true <;>
    by_cases hi : MemoryOptimizedConfig.IDLE_TIMEOUT ≤ m.get_idle_time now <;>
    simp [hw, hi, should_timeout_set_warning, ht, get_idle_time_set_warning,
      Nat.lt_iff_add_one_le, Nat.not_le] <;>
    omega

theorem claim_C5_amended_witness :
    (Action.idleClosingMessage ∈
        (pollTick (⟨0, 10, false, false, true⟩ : SessionManager) 320).2.1 ↔
      MemoryOptimizedConfig.IDLE_TIMEOUT ≤
        SessionManager.get_idle_time ⟨0, 10, false, false, true⟩ 320) ∧
    (Action.maxDurationClosingMessage ∈
        (pollTick (⟨0, 10, false, false, true⟩ : SessionManager) 320).2.1 ↔
      SessionManager.get_idle_time ⟨0, 10, false, false, true⟩ 320 <
        MemoryOptimizedConfig.IDLE_TIMEOUT) :=
  claim_C5_closing_message_by_idle_time ⟨0, 10, false, false, true⟩ 320 (by decide)

/-- C6: in every reachable state, `warning_sent` is true only if neither
party is speaking and idle time is at least the warning threshold; and
any speaking event makes `warning_sent` false. -/
theorem claim_C6_warning_sent_invariant :
    (∀ (m : SessionManager) (t : Nat), Reachable m t → m.warning_sent = true →
      m.is_agent_speaking = false ∧ m.is_user_speaking = false ∧
        MemoryOptimizedConfig.WARNING_TIME ≤ m.get_idle_time t) ∧
    (∀ (m : SessionManager) (e : SpeakingEvent) (t : Nat),
      (handleEvent m e t).warning_sent = false) := by
  constructor
  · intro m t h hw
    exact (reachable_invariant h).2.2 hw
  · intro m e t
    cases e <;> rfl

theorem claim_C6_witness :
    (pollTick (SessionManager.init 0) 45).1.is_agent_speaking = false ∧
      (pollTick (SessionManager.init 0) 45).1.is_user_speaking = false ∧
      MemoryOptimizedConfig.WARNING_TIME ≤
        (pollTick (SessionManager.init 0) 45).1.get_idle_time 45 :=
  claim_C6_warning_sent_invariant.1 _ 45
    (Reachable.tick 45 (Reachable.init 0) (Nat.zero_le 45)) (by decide)

/-- C9: in every reachable state, the session start time is at most the
last interaction time, so the reported idle time never exceeds the
reported session duration. -/
theorem claim_C9_idle_le_session (m : SessionManager) (t : Nat)
    (h : Reachable m t) :
    m.session_start_time ≤ m.last_interaction_time ∧
      m.get_idle_time t ≤ m.get_session_duration t := by
  obtain ⟨h1, _, _⟩ := reachable_invariant h
  refine ⟨h1, ?_⟩
  simp only [SessionManager.get_idle_time, SessionManager.get_session_duration]
  omega

theorem claim_C9_witness :
    SessionManager.session_start_time (SessionManager.init 5) ≤
      SessionManager.last_interaction_time (SessionManager.init 5) ∧
      SessionManager.get_idle_time (SessionManager.init 5) 5 ≤
        SessionManager.get_session_duration (SessionManager.init 5) 5 :=
  claim_C9_idle_le_session _ 5 (Reachable.init 5)

/-- C7: every error raised inside a poll iteration (a failing warning
`say`, closing `say`, or `disconnect`) is caught by the per-tick handler:
the iteration returns normally with the state as mutated so far, the
actions performed so far, and the loop continuing (the `break` flag is
false), so no error propagates out of the monitoring loop. -/
theorem claim_C7_tick_errors_caught (env : TickEnv) (m : SessionManager)
    (now : Nat) (e : TickError) (m1 : SessionManager) (acts : List Action)
    (h : tickBodyExc env m now = .error (e, m1, acts)) :
    loopIter env m now = (m1, acts, false) := by
  unfold loopIter
  rw [h]

theorem claim_C7_witness :
    loopIter ⟨false, true, true⟩ (SessionManager.init 0) 45 =
      (⟨0, 0, true, false, false⟩, [], false) :=
  claim_C7_tick_errors_caught ⟨false, true, true⟩ (SessionManager.init 0) 45
    TickError.sayWarningFailed ⟨0, 0, true, false, false⟩ [] rfl

/-- C10: if the closing-message `say` or the `disconnect` in the
termination branch raises, the `break` is not reached: the per-tick
handler catches the error and the loop continues, the disconnect has not
happened, the termination branch has written no state, and the timeout
condition still holds at every later tick, so termination is re-attempted
rather than guaranteed in the first tick where it held. -/
theorem claim_C10_failed_termination_retried (env : TickEnv)
    (m : SessionManager) (now : Nat) (e : TickError) (m1 : SessionManager)
    (acts : List Action)
    (h : tickBodyExc env m now = .error (e, m1, acts))
    (he : e = TickError.sayClosingFailed ∨ e = TickError.disconnectFailed) :
    loopIter env m now = (m1, acts, false) ∧
      Action.disconnect ∉ acts ∧
      m1.last_interaction_time = m.last_interaction_time ∧
      m1.session_start_time = m.session_start_time ∧
      m1.is_agent_speaking = m.is_agent_speaking ∧
      m1.is_user_speaking = m.is_user_speaking ∧
      ∀ now', now ≤ now' → m1.should_timeout_session now' = true := by
  have hiter : loopIter env m now = (m1, acts, false) := by
    unfold loopIter
    rw [h]
  have hm1 : m1 = (pollTick m now).1 := by
    have hf := loopIter_fst env m now
    rw [hiter] at hf
    simpa using hf
  have hfields : m1.last_interaction_time = m.last_interaction_time ∧
      m1.session_start_time = m.session_start_time ∧
      m1.is_agent_speaking = m.is_agent_speaking ∧
      m1.is_user_speaking = m.is_user_speaking := by
    rw [hm1, pollTick_fst]
    split <;> exact ⟨rfl, rfl, rfl, rfl⟩
  simp only [tickBodyExc] at h
  rw [should_timeout_if_warning, get_idle_time_if_warning] at h
  by_cases hb1 : (m.should_send_warning now && !env.sayWarningOk) = true
  · rw [if_pos hb1] at h
    simp only [Except.error.injEq, Prod.mk.injEq] at h
    obtain ⟨he1, -, -⟩ := h
    rcases he with he' | he' <;> exact absurd (he1.trans he') (by decide)
  · rw [if_neg hb1] at h
    by_cases hb2 : m.should_timeout_session now = true
    · rw [if_pos hb2] at h
      have hretry : ∀ now', now ≤ now' → m1.should_timeout_session now' = true := by
        intro now' hle
        rw [hm1, pollTick_fst, should_timeout_if_warning]
        exact should_timeout_mono hle hb2
      by_cases hb3 : (!env.sayClosingOk) = true
      · rw [if_pos hb3] at h
        simp only [Except.error.injEq, Prod.mk.injEq] at h
        obtain ⟨-, -, hacts⟩ := h
        refine ⟨hiter, ?_, hfields.1, hfields.2.1, hfields.2.2.1,
          hfields.2.2.2, hretry⟩
        rw [← hacts]
        split <;> simp
      · rw [if_neg hb3] at h
        by_cases hb4 : (!env.disconnectOk) = true
        · rw [if_pos hb4] at h
          simp only [Except.error.injEq, Prod.mk.injEq] at h
          obtain ⟨-, -, hacts⟩ := h
          refine ⟨hiter, ?_, hfields.1, hfields.2.1, hfields.2.2.1,
            hfields.2.2.2, hretry⟩
          rw [← hacts]
          split <;> split <;> simp
        · rw [if_neg hb4] at h
          exact absurd h (by simp)
    · rw [if_neg hb2] at h
      exact absurd h (by simp)

theorem claim_C10_witness :
    loopIter ⟨true, false, true⟩ (SessionManager.init 0) 70 =
      (⟨0, 0, true, false, false⟩, [Action.warningMessage], false) ∧
      Action.disconnect ∉ [Action.warningMessage] ∧
      SessionManager.last_interaction_time ⟨0, 0, true, false, false⟩ =
        SessionManager.last_interaction_time (SessionManager.init 0) ∧
      SessionManager.session_start_time ⟨0, 0, true, false, false⟩ =
        SessionManager.session_start_time (SessionManager.init 0) ∧
      SessionManager.is_agent_speaking ⟨0, 0, true, false, false⟩ =
        SessionManager.is_agent_speaking (SessionManager.init 0) ∧
      SessionManager.is_user_speaking ⟨0, 0, true, false, false⟩ =
        SessionManager.is_user_speaking (SessionManager.init 0) ∧
      ∀ now', 70 ≤ now' →
        SessionManager.should_timeout_session ⟨0, 0, true, false, false⟩ now' =
          true :=
  claim_C10_failed_termination_retried ⟨true, false, true⟩
    (SessionManager.init 0) 70 TickError.sayClosingFailed
    ⟨0, 0, true, false, false⟩ [Action.warningMessage] rfl (Or.inl rfl)

end Androfit
